import Mathlib

/-!
A shallow embedding of the w25n01gv-rs NAND-flash driver and proofs about it.

Bytes and 16-bit words are modelled as `Nat` with explicit truncation
(`% 256`, `% 65536`) where the Rust code relies on fixed-width arithmetic.
The QSPI transport is modelled as an oracle mapping the index of a bus
transaction (within one driver operation) to its outcome; every driver
operation returns its result together with the list of bus transactions it
issued, so that "touches the bus" claims are statable.
-/

set_option maxRecDepth 10000

inductive QspiMode
  | singleChannel
  | dualChannel
  | quadChannel
deriving DecidableEq

inductive QspiError
  | busy
  | address
  | unknown
deriving DecidableEq

/-- Mirror of `stm32l4xx_hal::qspi::QspiWriteCommand`. -/
structure QspiWriteCommand where
  instruction : Option (Nat × QspiMode)
  address : Option (Nat × QspiMode)
  alternativeBytes : Option (List Nat × QspiMode)
  dummyCycles : Nat
  data : Option (List Nat × QspiMode)
  doubleDataRate : Bool
deriving DecidableEq

/-- Mirror of `stm32l4xx_hal::qspi::QspiReadCommand`. -/
structure QspiReadCommand where
  instruction : Option (Nat × QspiMode)
  address : Option (Nat × QspiMode)
  alternativeBytes : Option (List Nat × QspiMode)
  dummyCycles : Nat
  dataMode : QspiMode
  receiveLength : Nat
  doubleDataRate : Bool
deriving DecidableEq

/-- One bus transaction issued by the driver. -/
inductive BusEvent
  | write (c : QspiWriteCommand)
  | transfer (c : QspiReadCommand)
deriving DecidableEq

/-- Environment model of the transport: the outcome of the n-th bus
transaction of a driver operation.  A `.ok bytes` outcome of a write
transaction means the command was accepted (the byte list is ignored);
for a read transaction the byte list is the received buffer. -/
def Oracle : Type := Nat → Except QspiError (List Nat)

/-- Mirror of `FlashCommands` (src/lib.rs); the four program-load opcodes are
used by src/write.rs but their declaration is absent from the lib.rs
snapshot.  Modelled from the spec: protocol-constant table, "Page load
(clear/random) 0x02 / 0x84, Page load quad (clear/random) 0x32 / 0x34". -/
def FlashCommands.DeviceReset : Nat := 0xFF
def FlashCommands.JEDECId : Nat := 0x9F
def FlashCommands.ReadStatusRegister : Nat := 0x05
def FlashCommands.WriteStatusRegister : Nat := 0x01
def FlashCommands.EnableWrite : Nat := 0x06
def FlashCommands.DisableWrite : Nat := 0x04
def FlashCommands.Erase128KBBlock : Nat := 0xD8
def FlashCommands.ReadBBM : Nat := 0xA5
def FlashCommands.ProgramExecute : Nat := 0x10
def FlashCommands.PageDataRead : Nat := 0x13
def FlashCommands.LoadProgramData : Nat := 0x02
def FlashCommands.RandomLoadProgramData : Nat := 0x84
def FlashCommands.QuadLoadProgramData : Nat := 0x32
def FlashCommands.QuadRandomLoadProgramData : Nat := 0x34

/-- Mirror of `FlashCommandError` (src/lib.rs).  The `WriteFailure` variant is
used by src/write.rs; its declaration is absent from the lib.rs snapshot.
Modelled from the spec: error kind `WriteFailure` (post-command status
check). -/
inductive FlashCommandError
  | QSPIBusy
  | QSPIAddress
  | QSPIUnknown
  | DeviceBusy
  | WriteFailure
deriving DecidableEq

/-- Mirror of `FlashCommandError::from_qspi_error`. -/
def FlashCommandError.from_qspi_error : QspiError → FlashCommandError
  | .busy => .QSPIBusy
  | .address => .QSPIAddress
  | .unknown => .QSPIUnknown

def PAGE_SIZE_BYTES : Nat := 2048
def PAGE_SIZE_WITH_ECC_BYTES : Nat := 2112
def MAX_BBM_LUT_ENTIRES : Nat := 20
def PAGES_PER_BLOCK : Nat := 64

/-- Mirror of `ECCStatus` (src/status.rs). -/
inductive ECCStatus
  | Successful
  | CorrectedSuccessfully
  | SinglePageError
  | MultiPageError
deriving DecidableEq

/-- Mirror of `ECCStatus::from_bits`. -/
def ECCStatus.from_bits (ecc_0 : Bool) (ecc_1 : Bool) : ECCStatus :=
  if ecc_1 then
    if ecc_0 then .MultiPageError else .SinglePageError
  else
    if ecc_0 then .CorrectedSuccessfully else .Successful

/-- Mirror of `ProtectionRegister` (src/status.rs). -/
structure ProtectionRegister where
  srp0 : Bool
  bp3 : Bool
  bp2 : Bool
  bp1 : Bool
  bp0 : Bool
  tb : Bool
  wpe : Bool
  srp1 : Bool
deriving DecidableEq

def ProtectionRegister.SAR_ADDRESS : Nat := 0xA0
def ProtectionRegister.SRP0_BIT : Nat := 0x80
def ProtectionRegister.BP3_BIT : Nat := 0x40
def ProtectionRegister.BP2_BIT : Nat := 0x20
def ProtectionRegister.BP1_BIT : Nat := 0x10
def ProtectionRegister.BP0_BIT : Nat := 0x08
def ProtectionRegister.TB_BIT : Nat := 0x04
def ProtectionRegister.WPE_BIT : Nat := 0x02
def ProtectionRegister.SRP1_BIT : Nat := 0x01

/-- Mirror of `ProtectionRegister::to_u8` (a sum of disjoint bit constants,
exactly as the Rust source adds them). -/
def ProtectionRegister.to_u8 (r : ProtectionRegister) : Nat :=
  (if r.srp0 then ProtectionRegister.SRP0_BIT else 0)
    + (if r.bp3 then ProtectionRegister.BP3_BIT else 0)
    + (if r.bp2 then ProtectionRegister.BP2_BIT else 0)
    + (if r.bp1 then ProtectionRegister.BP1_BIT else 0)
    + (if r.bp0 then ProtectionRegister.BP0_BIT else 0)
    + (if r.tb then ProtectionRegister.TB_BIT else 0)
    + (if r.wpe then ProtectionRegister.WPE_BIT else 0)
    + (if r.srp1 then ProtectionRegister.SRP1_BIT else 0)

/-- The read-side decode of the protection register byte, factored out of the
body of `read_protection_register` (src/status.rs). -/
def ProtectionRegister.from_u8 (reg_value : Nat) : ProtectionRegister :=
  { srp0 := reg_value &&& ProtectionRegister.SRP0_BIT != 0
    bp3 := reg_value &&& ProtectionRegister.BP3_BIT != 0
    bp2 := reg_value &&& ProtectionRegister.BP2_BIT != 0
    bp1 := reg_value &&& ProtectionRegister.BP1_BIT != 0
    bp0 := reg_value &&& ProtectionRegister.BP0_BIT != 0
    tb := reg_value &&& ProtectionRegister.TB_BIT != 0
    wpe := reg_value &&& ProtectionRegister.WPE_BIT != 0
    srp1 := reg_value &&& ProtectionRegister.SRP1_BIT != 0 }

/-- Mirror of `ConfigurationRegister` (src/status.rs). -/
structure ConfigurationRegister where
  otp_l : Bool
  otp_e : Bool
  sr1_l : Bool
  ecc_e : Bool
  buf : Bool
deriving DecidableEq

def ConfigurationRegister.SAR_ADDRESS : Nat := 0xB0
def ConfigurationRegister.OTP_L_BIT : Nat := 0x80
def ConfigurationRegister.OTP_E_BIT : Nat := 0x40
def ConfigurationRegister.SR1_L_BIT : Nat := 0x20
def ConfigurationRegister.ECC_E_BIT : Nat := 0x10
def ConfigurationRegister.BUF_BIT : Nat := 0x08

/-- Mirror of `ConfigurationRegister::to_u8`. -/
def ConfigurationRegister.to_u8 (r : ConfigurationRegister) : Nat :=
  (if r.otp_l then ConfigurationRegister.OTP_L_BIT else 0)
    + (if r.otp_e then ConfigurationRegister.OTP_E_BIT else 0)
    + (if r.sr1_l then ConfigurationRegister.SR1_L_BIT else 0)
    + (if r.ecc_e then ConfigurationRegister.ECC_E_BIT else 0)
    + (if r.buf then ConfigurationRegister.BUF_BIT else 0)

/-- The read-side decode of the configuration register byte, factored out of
the body of `read_configuration_register` (src/status.rs). -/
def ConfigurationRegister.from_u8 (reg_value : Nat) : ConfigurationRegister :=
  { otp_l := reg_value &&& ConfigurationRegister.OTP_L_BIT != 0
    otp_e := reg_value &&& ConfigurationRegister.OTP_E_BIT != 0
    sr1_l := reg_value &&& ConfigurationRegister.SR1_L_BIT != 0
    ecc_e := reg_value &&& ConfigurationRegister.ECC_E_BIT != 0
    buf := reg_value &&& ConfigurationRegister.BUF_BIT != 0 }

/-- Mirror of `StatusRegister` (src/status.rs). -/
structure StatusRegister where
  bbm_lut_full : Bool
  ecc_status : ECCStatus
  write_failure : Bool
  erase_failure : Bool
  write_enable_latch : Bool
  device_busy : Bool
deriving DecidableEq

def StatusRegister.SAR_ADDRESS : Nat := 0xC0
def StatusRegister.BBMLUT_FULL_BIT : Nat := 0x40
def StatusRegister.ECC1_STATUS_BIT : Nat := 0x20
def StatusRegister.ECC0_STATUS_BIT : Nat := 0x10
def StatusRegister.PROGRAM_FAILURE_BIT : Nat := 0x08
def StatusRegister.ERASE_FAILURE_BIT : Nat := 0x04
def StatusRegister.WRITE_ENABLE_LATCH_BIT : Nat := 0x02
def StatusRegister.BUSY_BIT : Nat := 0x01

/-- The decode of the status register byte, factored out of the body of
`read_status_register` (src/status.rs). -/
def StatusRegister.from_u8 (reg_value : Nat) : StatusRegister :=
  { bbm_lut_full := reg_value &&& StatusRegister.BBMLUT_FULL_BIT != 0
    ecc_status := ECCStatus.from_bits
      (reg_value &&& StatusRegister.ECC0_STATUS_BIT != 0)
      (reg_value &&& StatusRegister.ECC1_STATUS_BIT != 0)
    write_failure := reg_value &&& StatusRegister.PROGRAM_FAILURE_BIT != 0
    erase_failure := reg_value &&& StatusRegister.ERASE_FAILURE_BIT != 0
    write_enable_latch := reg_value &&& StatusRegister.WRITE_ENABLE_LATCH_BIT != 0
    device_busy := reg_value &&& StatusRegister.BUSY_BIT != 0 }

/-- Claim C2: encoding a `ProtectionRegister` or `ConfigurationRegister` to
its register byte and decoding that byte with the read-side bit masks yields
the original struct, for every field combination. -/
theorem protection_configuration_register_roundtrip :
    (∀ r : ProtectionRegister, ProtectionRegister.from_u8 r.to_u8 = r) ∧
    (∀ r : ConfigurationRegister, ConfigurationRegister.from_u8 r.to_u8 = r) := by
  constructor
  · intro r
    obtain ⟨a, b, c, d, e, f, g, h⟩ := r
    revert a b c d e f g h
    decide
  · intro r
    obtain ⟨a, b, c, d, e⟩ := r
    revert a b c d e
    decide

/-- Claim C3: `ECCStatus.from_bits` realises exactly the truth table
(0,0) to Successful, (1,0) to CorrectedSuccessfully, (0,1) to
SinglePageError, (1,1) to MultiPageError, where the pair is (ecc0, ecc1). -/
theorem ecc_status_truth_table :
    ECCStatus.from_bits false false = ECCStatus.Successful ∧
    ECCStatus.from_bits true false = ECCStatus.CorrectedSuccessfully ∧
    ECCStatus.from_bits false true = ECCStatus.SinglePageError ∧
    ECCStatus.from_bits true true = ECCStatus.MultiPageError := by
  decide

/-- Mode tags `ReadMode` / `WriteMode` (src/lib.rs). -/
inductive Mode
  | ReadMode
  | WriteMode
deriving DecidableEq

/-- Mirror of `W25N01GV<PINS, MODE>`: the handle owns the transport (here the
oracle standing in for the `Qspi` peripheral) and carries its mode tag in its
type. -/
structure W25N01GV (m : Mode) where
  qspi : Oracle

/-- Models `self.qspi.write(command)` together with its error mapping:
transaction `i` of the current operation, returning the driver-level result
and the bus event issued. -/
def qspiWrite (o : Oracle) (i : Nat) (c : QspiWriteCommand) :
    Except FlashCommandError Unit × List BusEvent :=
  match o i with
  | .error err => (.error (FlashCommandError.from_qspi_error err), [.write c])
  | .ok _ => (.ok (), [.write c])

/-- Models `self.qspi.transfer(command, &mut buffer)` together with its error
mapping: transaction `i` of the current operation. -/
def qspiTransfer (o : Oracle) (i : Nat) (c : QspiReadCommand) :
    Except FlashCommandError (List Nat) × List BusEvent :=
  match o i with
  | .error err => (.error (FlashCommandError.from_qspi_error err), [.transfer c])
  | .ok bytes => (.ok bytes, [.transfer c])

/-- The register-read command built identically by `read_status_register`,
`read_protection_register` and `read_configuration_register`
(src/status.rs), parametrised by the status-address-register byte. -/
def readRegisterCommand (sar : Nat) : QspiReadCommand :=
  { instruction := some (FlashCommands.ReadStatusRegister, .singleChannel)
    address := none
    alternativeBytes := some ([sar], .singleChannel)
    dummyCycles := 0
    dataMode := .singleChannel
    receiveLength := 1
    doubleDataRate := false }

/-- The register-write command built identically by
`write_protection_register` and `write_configuration_register`
(src/status.rs): a 2-byte payload of sub-address plus encoded value. -/
def writeRegisterCommand (bytes : List Nat) : QspiWriteCommand :=
  { instruction := some (FlashCommands.WriteStatusRegister, .singleChannel)
    address := none
    alternativeBytes := none
    dummyCycles := 0
    data := some (bytes, .singleChannel)
    doubleDataRate := false }

/-- Mirror of `read_status_register` (src/status.rs): issues the register
read at sub-address 0xC0 (with no busy pre-flight) and decodes the byte.
`i` is the index of this bus transaction within the calling operation. -/
def read_status_register (o : Oracle) (i : Nat) :
    Except FlashCommandError StatusRegister × List BusEvent :=
  match qspiTransfer o i (readRegisterCommand StatusRegister.SAR_ADDRESS) with
  | (.error e, t) => (.error e, t)
  | (.ok bytes, t) => (.ok (StatusRegister.from_u8 (bytes.headD 0)), t)

/-- Mirror of `read_protection_register` (src/status.rs): issues the register
read at sub-address 0xA0 (with no busy pre-flight) and decodes the byte. -/
def read_protection_register (o : Oracle) (i : Nat) :
    Except FlashCommandError ProtectionRegister × List BusEvent :=
  match qspiTransfer o i (readRegisterCommand ProtectionRegister.SAR_ADDRESS) with
  | (.error e, t) => (.error e, t)
  | (.ok bytes, t) => (.ok (ProtectionRegister.from_u8 (bytes.headD 0)), t)

/-- Mirror of `read_configuration_register` (src/status.rs): issues the
register read at sub-address 0xB0 (with no busy pre-flight) and decodes the
byte. -/
def read_configuration_register (o : Oracle) (i : Nat) :
    Except FlashCommandError ConfigurationRegister × List BusEvent :=
  match qspiTransfer o i (readRegisterCommand ConfigurationRegister.SAR_ADDRESS) with
  | (.error e, t) => (.error e, t)
  | (.ok bytes, t) => (.ok (ConfigurationRegister.from_u8 (bytes.headD 0)), t)

/-- Mirror of `check_busy` (src/lib.rs): reads the status register and
projects the `device_busy` bit. -/
def check_busy (o : Oracle) (i : Nat) :
    Except FlashCommandError Bool × List BusEvent :=
  match read_status_register o i with
  | (.ok status_register, t) => (.ok status_register.device_busy, t)
  | (.error e, t) => (.error e, t)

/-- The busy pre-flight block that every gated operation inlines
(`match self.check_busy() { Ok(busy) => if busy return Err(DeviceBusy), ...,
Err(err) => return Err(err) }`), factored into one helper.  Returns `some e`
when the operation must return early with error `e`. -/
def busy_gate (o : Oracle) (i : Nat) :
    Option FlashCommandError × List BusEvent :=
  match check_busy o i with
  | (.ok busy, t) => (if busy then some FlashCommandError.DeviceBusy else none, t)
  | (.error e, t) => (some e, t)

/-- The command built by `reset_device` (src/lib.rs). -/
def deviceResetCommand : QspiWriteCommand :=
  { instruction := some (FlashCommands.DeviceReset, .singleChannel)
    address := none
    alternativeBytes := none
    dummyCycles := 0
    data := none
    doubleDataRate := false }

/-- Mirror of `reset_device` (src/lib.rs): busy pre-flight, then the
device-reset command. -/
def reset_device {m : Mode} (dev : W25N01GV m) :
    Except FlashCommandError Unit × List BusEvent :=
  match busy_gate dev.qspi 0 with
  | (some e, t) => (.error e, t)
  | (none, t) =>
    match qspiWrite dev.qspi 1 deviceResetCommand with
    | (.error e, t2) => (.error e, t ++ t2)
    | (.ok _, t2) => (.ok (), t ++ t2)

/-- The command built by `get_jedec_id` (src/lib.rs). -/
def jedecIdCommand : QspiReadCommand :=
  { instruction := some (FlashCommands.JEDECId, .singleChannel)
    address := none
    alternativeBytes := none
    dummyCycles := 8
    dataMode := .singleChannel
    receiveLength := 3
    doubleDataRate := false }

/-- Mirror of `get_jedec_id` (src/lib.rs): busy pre-flight, then the JEDEC-id
read into a 3-byte buffer initialised to zero. -/
def get_jedec_id {m : Mode} (dev : W25N01GV m) :
    Except FlashCommandError (List Nat) × List BusEvent :=
  match busy_gate dev.qspi 0 with
  | (some e, t) => (.error e, t)
  | (none, t) =>
    match qspiTransfer dev.qspi 1 jedecIdCommand with
    | (.error e, t2) => (.error e, t ++ t2)
    | (.ok bytes, t2) =>
      (.ok [bytes.getD 0 0, bytes.getD 1 0, bytes.getD 2 0], t ++ t2)

/-- Mirror of `u16::to_be_bytes` on a page address (most significant byte
first), as used by `read_memory_to_data_buffer` (src/read.rs). -/
def u16_to_be_bytes (x : Nat) : List Nat :=
  [x / 256 % 256, x % 256]

/-- Mirror of `u16::to_le_bytes` on a page address (least significant byte
first), as used by `erase_128kb_block` and `write_data_buffer_to_memory`
(src/write.rs). -/
def u16_to_le_bytes (x : Nat) : List Nat :=
  [x % 256, x / 256 % 256]

/-- The command built by `read_memory_to_data_buffer` (src/read.rs): the
page-data-read (stage) instruction with the big-endian page-address payload. -/
def pageDataReadCommand (bytes : List Nat) : QspiWriteCommand :=
  { instruction := some (FlashCommands.PageDataRead, .singleChannel)
    address := none
    alternativeBytes := none
    dummyCycles := 8
    data := some (bytes, .singleChannel)
    doubleDataRate := false }

/-- Mirror of `read_memory_to_data_buffer` (src/read.rs): busy pre-flight,
then the page-data-read command carrying `page_address.to_be_bytes()`. -/
def read_memory_to_data_buffer {m : Mode} (dev : W25N01GV m) (page_address : Nat) :
    Except FlashCommandError Unit × List BusEvent :=
  match busy_gate dev.qspi 0 with
  | (some e, t) => (.error e, t)
  | (none, t) =>
    match qspiWrite dev.qspi 1 (pageDataReadCommand (u16_to_be_bytes page_address)) with
    | (.error e, t2) => (.error e, t ++ t2)
    | (.ok _, t2) => (.ok (), t ++ t2)

/-- Mirror of `ReadMethod` (src/read.rs); the dual-I/O and quad-I/O variants
keep the source's names up to the capitalisation of the final letters. -/
inductive ReadMethod
  | FastRead
  | DualFastRead
  | QuadFastRead
  | FastReadDualIo
  | FastReadQuadIo
deriving DecidableEq

/-- The discriminant values of `ReadMethod` (used via `method as u8`). -/
def ReadMethod.opcode : ReadMethod → Nat
  | .FastRead => 0x0B
  | .DualFastRead => 0x3B
  | .QuadFastRead => 0x6B
  | .FastReadDualIo => 0xBB
  | .FastReadQuadIo => 0xEB

/-- Mirror of `ReadMethod::dummy_cycles`. -/
def ReadMethod.dummy_cycles : ReadMethod → Nat
  | .FastRead => 8
  | .DualFastRead => 8
  | .QuadFastRead => 8
  | .FastReadDualIo => 4
  | .FastReadQuadIo => 4

/-- Mirror of `ReadMethod::address_mode`. -/
def ReadMethod.address_mode : ReadMethod → QspiMode
  | .FastRead => .singleChannel
  | .DualFastRead => .singleChannel
  | .QuadFastRead => .singleChannel
  | .FastReadDualIo => .dualChannel
  | .FastReadQuadIo => .quadChannel

/-- Mirror of `ReadMethod::data_mode`. -/
def ReadMethod.data_mode : ReadMethod → QspiMode
  | .FastRead => .singleChannel
  | .DualFastRead => .dualChannel
  | .QuadFastRead => .quadChannel
  | .FastReadDualIo => .dualChannel
  | .FastReadQuadIo => .quadChannel

/-- The command built by `read_data_buffer` (src/read.rs). -/
def readDataBufferCommand (method : ReadMethod) : QspiReadCommand :=
  { instruction := some (method.opcode, .singleChannel)
    address := some (0, method.address_mode)
    alternativeBytes := none
    dummyCycles := method.dummy_cycles
    dataMode := method.data_mode
    receiveLength := PAGE_SIZE_WITH_ECC_BYTES
    doubleDataRate := false }

/-- Mirror of `read_data_buffer` (src/read.rs): busy pre-flight, then the
fast-read transfer of the 2112-byte data buffer. -/
def read_data_buffer {m : Mode} (dev : W25N01GV m) (method : ReadMethod) :
    Except FlashCommandError (List Nat) × List BusEvent :=
  match busy_gate dev.qspi 0 with
  | (some e, t) => (.error e, t)
  | (none, t) =>
    match qspiTransfer dev.qspi 1 (readDataBufferCommand method) with
    | (.error e, t2) => (.error e, t ++ t2)
    | (.ok bytes, t2) => (.ok bytes, t ++ t2)

/-- The command built by `read_bbm_lookup_table` (src/read.rs). -/
def bbmReadCommand : QspiReadCommand :=
  { instruction := some (FlashCommands.ReadBBM, .singleChannel)
    address := none
    alternativeBytes := none
    dummyCycles := 8
    dataMode := .singleChannel
    receiveLength := MAX_BBM_LUT_ENTIRES * 4
    doubleDataRate := false }

/-- The decode loop of `read_bbm_lookup_table` (src/read.rs).  The Rust
source computes `buffer[i*4] as u16 + (buffer[i*4+1] as u16) << 8`; by Rust
operator precedence `+` binds tighter than `<<`, so this is the 16-bit
truncation of `(b0 + b1) << 8`, embedded here verbatim. -/
def decode_bbm_buffer (buffer : List Nat) : List (Option (Nat × Nat)) :=
  (List.range MAX_BBM_LUT_ENTIRES).map fun link_index =>
    let lba := (buffer.getD (link_index * 4) 0
      + buffer.getD (link_index * 4 + 1) 0) <<< 8 % 65536
    let pba := (buffer.getD (link_index * 4 + 2) 0
      + buffer.getD (link_index * 4 + 3) 0) <<< 8 % 65536
    if lba != 0 || pba != 0 then some (lba, pba) else none

/-- Mirror of `read_bbm_lookup_table` (src/read.rs): busy pre-flight, the
80-byte BBM read, then the per-slot decode. -/
def read_bbm_lookup_table {m : Mode} (dev : W25N01GV m) :
    Except FlashCommandError (List (Option (Nat × Nat))) × List BusEvent :=
  match busy_gate dev.qspi 0 with
  | (some e, t) => (.error e, t)
  | (none, t) =>
    match qspiTransfer dev.qspi 1 bbmReadCommand with
    | (.error e, t2) => (.error e, t ++ t2)
    | (.ok buffer, t2) => (.ok (decode_bbm_buffer buffer), t ++ t2)

/-- The command built by `into_write_mode` (src/write.rs). -/
def enableWriteCommand : QspiWriteCommand :=
  { instruction := some (FlashCommands.EnableWrite, .singleChannel)
    address := none
    alternativeBytes := none
    dummyCycles := 0
    data := none
    doubleDataRate := false }

/-- The command built by `into_read_mode` (src/write.rs). -/
def disableWriteCommand : QspiWriteCommand :=
  { instruction := some (FlashCommands.DisableWrite, .singleChannel)
    address := none
    alternativeBytes := none
    dummyCycles := 0
    data := none
    doubleDataRate := false }

/-- Mirror of `into_write_mode` (src/write.rs): consumes a read-mode handle;
busy pre-flight, then the enable-write command; on success the write-mode
handle is built from the consumed handle's transport. -/
def into_write_mode (dev : W25N01GV Mode.ReadMode) :
    Except FlashCommandError (W25N01GV Mode.WriteMode) × List BusEvent :=
  match busy_gate dev.qspi 0 with
  | (some e, t) => (.error e, t)
  | (none, t) =>
    match qspiWrite dev.qspi 1 enableWriteCommand with
    | (.error e, t2) => (.error e, t ++ t2)
    | (.ok _, t2) => (.ok ⟨dev.qspi⟩, t ++ t2)

/-- Mirror of `into_read_mode` (src/write.rs): consumes a write-mode handle;
busy pre-flight, then the disable-write command. -/
def into_read_mode (dev : W25N01GV Mode.WriteMode) :
    Except FlashCommandError (W25N01GV Mode.ReadMode) × List BusEvent :=
  match busy_gate dev.qspi 0 with
  | (some e, t) => (.error e, t)
  | (none, t) =>
    match qspiWrite dev.qspi 1 disableWriteCommand with
    | (.error e, t2) => (.error e, t ++ t2)
    | (.ok _, t2) => (.ok ⟨dev.qspi⟩, t ++ t2)

/-- The command built by `erase_128kb_block` (src/write.rs): the block-erase
instruction with the little-endian page-address payload. -/
def eraseBlockCommand (bytes : List Nat) : QspiWriteCommand :=
  { instruction := some (FlashCommands.Erase128KBBlock, .singleChannel)
    address := none
    alternativeBytes := none
    dummyCycles := 8
    data := some (bytes, .singleChannel)
    doubleDataRate := false }

/-- Mirror of `erase_128kb_block` (src/write.rs): busy pre-flight, the erase
command carrying `page_address.to_le_bytes()`, then — only if the follow-up
status read succeeds — a check of the `erase_failure` bit; a failed status
read is ignored and a read-mode handle is returned. -/
def erase_128kb_block (dev : W25N01GV Mode.WriteMode) (page_address : Nat) :
    Except FlashCommandError (W25N01GV Mode.ReadMode) × List BusEvent :=
  match busy_gate dev.qspi 0 with
  | (some e, t) => (.error e, t)
  | (none, t) =>
    match qspiWrite dev.qspi 1 (eraseBlockCommand (u16_to_le_bytes page_address)) with
    | (.error e, t2) => (.error e, t ++ t2)
    | (.ok _, t2) =>
      match read_status_register dev.qspi 2 with
      | (.ok register, t3) =>
        if register.erase_failure then (.error .WriteFailure, t ++ t2 ++ t3)
        else (.ok ⟨dev.qspi⟩, t ++ t2 ++ t3)
      | (.error _, t3) => (.ok ⟨dev.qspi⟩, t ++ t2 ++ t3)

/-- The command built by `quad_load_to_data_buffer` (src/write.rs). -/
def quadLoadCommand (bytes : List Nat) (starting_address : Nat)
    (clear_unwritten_bytes : Bool) : QspiWriteCommand :=
  { instruction := some
      (if clear_unwritten_bytes then FlashCommands.QuadLoadProgramData
       else FlashCommands.QuadRandomLoadProgramData, .singleChannel)
    address := some (starting_address, .singleChannel)
    alternativeBytes := none
    dummyCycles := 0
    data := some (bytes, .quadChannel)
    doubleDataRate := false }

/-- Mirror of `quad_load_to_data_buffer` (src/write.rs). -/
def quad_load_to_data_buffer (dev : W25N01GV Mode.WriteMode) (bytes : List Nat)
    (starting_address : Nat) (clear_unwritten_bytes : Bool) :
    Except FlashCommandError Unit × List BusEvent :=
  match busy_gate dev.qspi 0 with
  | (some e, t) => (.error e, t)
  | (none, t) =>
    match qspiWrite dev.qspi 1
        (quadLoadCommand bytes starting_address clear_unwritten_bytes) with
    | (.error e, t2) => (.error e, t ++ t2)
    | (.ok _, t2) => (.ok (), t ++ t2)

/-- The command built by `single_load_to_data_buffer` (src/write.rs). -/
def singleLoadCommand (bytes : List Nat) (starting_address : Nat)
    (clear_unwritten_bytes : Bool) : QspiWriteCommand :=
  { instruction := some
      (if clear_unwritten_bytes then FlashCommands.LoadProgramData
       else FlashCommands.RandomLoadProgramData, .singleChannel)
    address := some (starting_address, .singleChannel)
    alternativeBytes := none
    dummyCycles := 0
    data := some (bytes, .singleChannel)
    doubleDataRate := false }

/-- Mirror of `single_load_to_data_buffer` (src/write.rs). -/
def single_load_to_data_buffer (dev : W25N01GV Mode.WriteMode) (bytes : List Nat)
    (starting_address : Nat) (clear_unwritten_bytes : Bool) :
    Except FlashCommandError Unit × List BusEvent :=
  match busy_gate dev.qspi 0 with
  | (some e, t) => (.error e, t)
  | (none, t) =>
    match qspiWrite dev.qspi 1
        (singleLoadCommand bytes starting_address clear_unwritten_bytes) with
    | (.error e, t2) => (.error e, t ++ t2)
    | (.ok _, t2) => (.ok (), t ++ t2)

/-- The command built by `write_data_buffer_to_memory` (src/write.rs): the
program-execute instruction with the little-endian page-address payload. -/
def programExecuteCommand (bytes : List Nat) : QspiWriteCommand :=
  { instruction := some (FlashCommands.ProgramExecute, .singleChannel)
    address := none
    alternativeBytes := none
    dummyCycles := 8
    data := some (bytes, .singleChannel)
    doubleDataRate := false }

/-- Mirror of `write_data_buffer_to_memory` (src/write.rs): busy pre-flight,
the program-execute command carrying `page_address.to_le_bytes()`, then —
only if the follow-up status read succeeds — a check of the `erase_failure`
bit (the source consults `erase_failure`, not `write_failure`, here too); a
failed status read is ignored and a read-mode handle is returned. -/
def write_data_buffer_to_memory (dev : W25N01GV Mode.WriteMode) (page_address : Nat) :
    Except FlashCommandError (W25N01GV Mode.ReadMode) × List BusEvent :=
  match busy_gate dev.qspi 0 with
  | (some e, t) => (.error e, t)
  | (none, t) =>
    match qspiWrite dev.qspi 1 (programExecuteCommand (u16_to_le_bytes page_address)) with
    | (.error e, t2) => (.error e, t ++ t2)
    | (.ok _, t2) =>
      match read_status_register dev.qspi 2 with
      | (.ok register, t3) =>
        if register.erase_failure then (.error .WriteFailure, t ++ t2 ++ t3)
        else (.ok ⟨dev.qspi⟩, t ++ t2 ++ t3)
      | (.error _, t3) => (.ok ⟨dev.qspi⟩, t ++ t2 ++ t3)

/-- Mirror of `write_protection_register` (src/status.rs): busy pre-flight at
transaction `i`, then the 2-byte register write (sub-address 0xA0 plus the
encoded value) at transaction `i + 1`. -/
def write_protection_register (o : Oracle) (i : Nat)
    (protection_register : ProtectionRegister) :
    Except FlashCommandError Unit × List BusEvent :=
  match busy_gate o i with
  | (some e, t) => (.error e, t)
  | (none, t) =>
    match qspiWrite o (i + 1) (writeRegisterCommand
        [ProtectionRegister.SAR_ADDRESS, protection_register.to_u8]) with
    | (.error e, t2) => (.error e, t ++ t2)
    | (.ok _, t2) => (.ok (), t ++ t2)

/-- Mirror of `write_configuration_register` (src/status.rs): busy pre-flight
at transaction `i`, then the 2-byte register write (sub-address 0xB0 plus the
encoded value) at transaction `i + 1`. -/
def write_configuration_register (o : Oracle) (i : Nat)
    (configuration_register : ConfigurationRegister) :
    Except FlashCommandError Unit × List BusEvent :=
  match busy_gate o i with
  | (some e, t) => (.error e, t)
  | (none, t) =>
    match qspiWrite o (i + 1) (writeRegisterCommand
        [ConfigurationRegister.SAR_ADDRESS, configuration_register.to_u8]) with
    | (.error e, t2) => (.error e, t ++ t2)
    | (.ok _, t2) => (.ok (), t ++ t2)

/-- Mirror of `set_write_protection` (src/write.rs): busy pre-flight, read
the protection register, overwrite the `tb`/`bp3`/`bp2`/`bp1`/`bp0` fields
with the arguments, and write the register back (the nested
`write_protection_register` call performs its own busy pre-flight as
transaction 2 and the register write as transaction 3). -/
def set_write_protection {m : Mode} (dev : W25N01GV m)
    (tb bp3 bp2 bp1 bp0 : Bool) :
    Except FlashCommandError Unit × List BusEvent :=
  match busy_gate dev.qspi 0 with
  | (some e, t) => (.error e, t)
  | (none, t) =>
    match read_protection_register dev.qspi 1 with
    | (.error e, t2) => (.error e, t ++ t2)
    | (.ok protection_register, t2) =>
      match write_protection_register dev.qspi 2
          { protection_register with
            tb := tb, bp3 := bp3, bp2 := bp2, bp1 := bp1, bp0 := bp0 } with
      | (r, t3) => (r, t ++ t2 ++ t3)

/-- Mirror of `set_continuous_read_mode` (src/write.rs): busy pre-flight,
read the configuration register, set `buf := !continuous_read`, and write the
register back (the nested `write_configuration_register` call performs its
own busy pre-flight as transaction 2 and the register write as
transaction 3). -/
def set_continuous_read_mode {m : Mode} (dev : W25N01GV m)
    (continuous_read : Bool) :
    Except FlashCommandError Unit × List BusEvent :=
  match busy_gate dev.qspi 0 with
  | (some e, t) => (.error e, t)
  | (none, t) =>
    match read_configuration_register dev.qspi 1 with
    | (.error e, t2) => (.error e, t ++ t2)
    | (.ok configuration_register, t2) =>
      match write_configuration_register dev.qspi 2
          { configuration_register with buf := !continuous_read } with
      | (r, t3) => (r, t ++ t2 ++ t3)

/-- The loop body of `wait_while_busy` (src/lib.rs), with explicit fuel
bounding the number of loop iterations (the Rust loop is unbounded; every
statement about it below is conditional on enough fuel for the iterations it
mentions).  Returns the list of bus transactions issued; iteration `k` of
the loop is bus transaction `i + k`. -/
def wait_while_busy_loop (o : Oracle) (i : Nat) : Nat → List BusEvent
  | 0 => []
  | fuel + 1 =>
    match check_busy o i with
    | (.ok busy, t) => if busy then t ++ wait_while_busy_loop o (i + 1) fuel else t
    | (.error _, t) => t

/-- Mirror of `wait_while_busy` (src/lib.rs): repeatedly calls `check_busy`,
breaking when the busy bit is clear or the status query itself fails; the
transport error is swallowed (the function returns no error, only its bus
trace is observable). -/
def wait_while_busy {m : Mode} (dev : W25N01GV m) (fuel : Nat) : List BusEvent :=
  wait_while_busy_loop dev.qspi 0 fuel

/-- The single status-register read event, issued by every `check_busy`. -/
def statusReadEvent : BusEvent :=
  .transfer (readRegisterCommand StatusRegister.SAR_ADDRESS)

/-- An oracle whose every transaction succeeds with the single byte 1: a
status-register read decodes it to `device_busy = true`. -/
def busyOracle : Oracle := fun _ => .ok [1]

/-- An oracle whose every transaction succeeds with the single byte 0: a
status-register read decodes it to an idle, failure-free device. -/
def okOracle : Oracle := fun _ => .ok [0]

/-- Claim C1, counterexample: with the device busy, `reset_device` and
`get_jedec_id` do run the busy pre-flight and fail with `DeviceBusy` after
only the status query (the claim exempts them), while
`read_protection_register` issues its own register-read command with no
pre-flight and succeeds although the status byte would decode as busy. -/
theorem busy_preflight_exemption_counterexample :
    (reset_device (⟨busyOracle⟩ : W25N01GV Mode.ReadMode)).1 =
      .error .DeviceBusy ∧
    (reset_device (⟨busyOracle⟩ : W25N01GV Mode.ReadMode)).2 =
      [statusReadEvent] ∧
    (get_jedec_id (⟨busyOracle⟩ : W25N01GV Mode.ReadMode)).1 =
      .error .DeviceBusy ∧
    (StatusRegister.from_u8 1).device_busy = true ∧
    (read_protection_register busyOracle 0).1 =
      .ok (ProtectionRegister.from_u8 1) ∧
    (read_protection_register busyOracle 0).2 =
      [.transfer (readRegisterCommand ProtectionRegister.SAR_ADDRESS)] :=
  ⟨rfl, rfl, rfl, by decide, rfl, rfl⟩

/-- Claim C1, amended: every driver operation that issues a non-register-read
command — `reset_device` and `get_jedec_id` included — first reads the status
register, and if the decoded `device_busy` bit is set returns `DeviceBusy`
with no further bus traffic; the raw register reads (`read_status_register`,
`read_protection_register`, `read_configuration_register`) issue their read
command without any pre-flight check. -/
theorem busy_preflight_gating (o : Oracle) (b pa sa : Nat) (bytes : List Nat)
    (method : ReadMethod) (tb bp3 bp2 bp1 bp0 cub cr : Bool)
    (pr : ProtectionRegister) (cfg : ConfigurationRegister)
    (h0 : o 0 = .ok [b])
    (hb : (StatusRegister.from_u8 b).device_busy = true) :
    reset_device (⟨o⟩ : W25N01GV Mode.ReadMode) =
      (.error .DeviceBusy, [statusReadEvent]) ∧
    get_jedec_id (⟨o⟩ : W25N01GV Mode.ReadMode) =
      (.error .DeviceBusy, [statusReadEvent]) ∧
    read_memory_to_data_buffer (⟨o⟩ : W25N01GV Mode.ReadMode) pa =
      (.error .DeviceBusy, [statusReadEvent]) ∧
    read_data_buffer (⟨o⟩ : W25N01GV Mode.ReadMode) method =
      (.error .DeviceBusy, [statusReadEvent]) ∧
    read_bbm_lookup_table (⟨o⟩ : W25N01GV Mode.ReadMode) =
      (.error .DeviceBusy, [statusReadEvent]) ∧
    into_write_mode ⟨o⟩ = (.error .DeviceBusy, [statusReadEvent]) ∧
    into_read_mode ⟨o⟩ = (.error .DeviceBusy, [statusReadEvent]) ∧
    erase_128kb_block ⟨o⟩ pa = (.error .DeviceBusy, [statusReadEvent]) ∧
    quad_load_to_data_buffer ⟨o⟩ bytes sa cub =
      (.error .DeviceBusy, [statusReadEvent]) ∧
    single_load_to_data_buffer ⟨o⟩ bytes sa cub =
      (.error .DeviceBusy, [statusReadEvent]) ∧
    write_data_buffer_to_memory ⟨o⟩ pa =
      (.error .DeviceBusy, [statusReadEvent]) ∧
    set_write_protection (⟨o⟩ : W25N01GV Mode.ReadMode) tb bp3 bp2 bp1 bp0 =
      (.error .DeviceBusy, [statusReadEvent]) ∧
    set_continuous_read_mode (⟨o⟩ : W25N01GV Mode.ReadMode) cr =
      (.error .DeviceBusy, [statusReadEvent]) ∧
    write_protection_register o 0 pr =
      (.error .DeviceBusy, [statusReadEvent]) ∧
    write_configuration_register o 0 cfg =
      (.error .DeviceBusy, [statusReadEvent]) ∧
    read_status_register o 0 =
      (.ok (StatusRegister.from_u8 b), [statusReadEvent]) ∧
    read_protection_register o 0 =
      (.ok (ProtectionRegister.from_u8 b),
       [.transfer (readRegisterCommand ProtectionRegister.SAR_ADDRESS)]) ∧
    read_configuration_register o 0 =
      (.ok (ConfigurationRegister.from_u8 b),
       [.transfer (readRegisterCommand ConfigurationRegister.SAR_ADDRESS)]) := by
  refine ⟨?_, ?_, ?_, ?_, ?_, ?_, ?_, ?_, ?_, ?_, ?_, ?_, ?_, ?_, ?_, ?_, ?_, ?_⟩ <;>
    simp [reset_device, get_jedec_id, read_memory_to_data_buffer,
      read_data_buffer, read_bbm_lookup_table, into_write_mode, into_read_mode,
      erase_128kb_block, quad_load_to_data_buffer, single_load_to_data_buffer,
      write_data_buffer_to_memory, set_write_protection,
      set_continuous_read_mode, write_protection_register,
      write_configuration_register, read_status_register,
      read_protection_register, read_configuration_register, busy_gate,
      check_busy, qspiTransfer, qspiWrite, h0, hb, statusReadEvent]

/-- Claim C1, witness for the amended theorem at a concrete busy oracle. -/
theorem busy_preflight_gating_witness :
    busyOracle 0 = .ok [1] ∧
    (StatusRegister.from_u8 1).device_busy = true ∧
    reset_device (⟨busyOracle⟩ : W25N01GV Mode.ReadMode) =
      (.error .DeviceBusy, [statusReadEvent]) :=
  ⟨rfl, by decide,
    (busy_preflight_gating busyOracle 1 0 0 [] ReadMethod.FastRead true true
      true true true true true (ProtectionRegister.from_u8 0)
      (ConfigurationRegister.from_u8 0) rfl (by decide)).1⟩

/-- An all-zero 80-byte raw bad-block table buffer. -/
def bbmZeroBuffer : List Nat := List.replicate 80 0

/-- A raw bad-block buffer whose only non-zero slot is slot 0, with bytes
1, 2, 0, 0. -/
def bbmSlotBuffer : List Nat := [1, 2, 0, 0] ++ List.replicate 76 0

/-- A raw bad-block buffer whose only non-zero slot is slot 0, with bytes
0x80, 0x80, 0, 0; the two byte sums are multiples of 256, so the buggy
decode truncates both halves of the pair to zero. -/
def bbmMaskedBuffer : List Nat := [0x80, 0x80, 0, 0] ++ List.replicate 76 0

/-- Claim C4: evaluation of the bad-block-table decode at the failing
inputs.  An all-zero buffer does decode to 20 absent entries, but the slot
with bytes 1, 2, 0, 0 decodes to the pair (768, 0) — Rust parses
`b0 as u16 + (b1 as u16) << 8` as `(b0 + b1) << 8`, and 768 = (1 + 2) * 256
is neither the little-endian value 513 nor the big-endian value 258 — and
the non-zero slot 0x80, 0x80, 0, 0 decodes to (0, 0) and is reported
absent. -/
theorem bbm_decode_precedence_bug :
    decode_bbm_buffer bbmZeroBuffer = List.replicate 20 none ∧
    decode_bbm_buffer bbmSlotBuffer = some (768, 0) :: List.replicate 19 none ∧
    (768 : Nat) ≠ 1 + 2 * 256 ∧
    (768 : Nat) ≠ 1 * 256 + 2 ∧
    decode_bbm_buffer bbmMaskedBuffer = List.replicate 20 none := by
  refine ⟨by decide, by decide, by decide, by decide, by decide⟩

/-- Claim C5: evaluation of the three page-addressed commands at page
address 258 = 0x0102 with an idle, all-success transport.  The
page-data-read stage command carries the big-endian pair 1, 2 while the
block-erase and program-execute commands carry the little-endian pair 2, 1:
the byte order is not consistent across the three operations. -/
theorem page_address_byte_order_divergence :
    (read_memory_to_data_buffer (⟨okOracle⟩ : W25N01GV Mode.ReadMode) 258).2 =
      [statusReadEvent, .write (pageDataReadCommand [1, 2])] ∧
    (erase_128kb_block (⟨okOracle⟩ : W25N01GV Mode.WriteMode) 258).2 =
      [statusReadEvent, .write (eraseBlockCommand [2, 1]), statusReadEvent] ∧
    (write_data_buffer_to_memory (⟨okOracle⟩ : W25N01GV Mode.WriteMode) 258).2 =
      [statusReadEvent, .write (programExecuteCommand [2, 1]), statusReadEvent] ∧
    u16_to_be_bytes 258 ≠ u16_to_le_bytes 258 :=
  ⟨rfl, rfl, rfl, by decide⟩

/-- An oracle for a write-mode command sequence whose post-command status
read (transaction 2) reports the byte 8: `write_failure` set,
`erase_failure` clear. -/
def writeFailOracle : Oracle := fun i => if i = 2 then .ok [8] else .ok [0]

/-- An oracle for a write-mode command sequence whose post-command status
read (transaction 2) reports the byte 4: `erase_failure` set. -/
def eraseFailOracle : Oracle := fun i => if i = 2 then .ok [4] else .ok [0]

/-- Claim C6, counterexample: after a successful bus transfer, a
post-command status byte with only `write_failure` set makes both
`erase_128kb_block` and `write_data_buffer_to_memory` return a read-mode
handle, not the `WriteFailure` error the claim requires. -/
theorem post_command_check_counterexample :
    (StatusRegister.from_u8 8).write_failure = true ∧
    (StatusRegister.from_u8 8).erase_failure = false ∧
    (erase_128kb_block (⟨writeFailOracle⟩ : W25N01GV Mode.WriteMode) 0).1 =
      .ok ⟨writeFailOracle⟩ ∧
    (write_data_buffer_to_memory (⟨writeFailOracle⟩ : W25N01GV Mode.WriteMode) 0).1 =
      .ok ⟨writeFailOracle⟩ :=
  ⟨by decide, by decide, rfl, rfl⟩

/-- Claim C6, amended: after an erase or program-execute whose bus transfer
succeeded and whose post-command status read succeeded, the operation
returns `WriteFailure` precisely when the decoded status shows
`erase_failure` set — the `write_failure` bit is not consulted, by either
operation — and otherwise returns a read-mode handle. -/
theorem post_command_erase_failure_check (o : Oracle) (pa b0 s : Nat)
    (w : List Nat) (h0 : o 0 = .ok [b0])
    (hbusy : (StatusRegister.from_u8 b0).device_busy = false)
    (h1 : o 1 = .ok w) (h2 : o 2 = .ok [s]) :
    ((StatusRegister.from_u8 s).erase_failure = true →
      (erase_128kb_block (⟨o⟩ : W25N01GV Mode.WriteMode) pa).1 =
        .error .WriteFailure ∧
      (write_data_buffer_to_memory (⟨o⟩ : W25N01GV Mode.WriteMode) pa).1 =
        .error .WriteFailure) ∧
    ((StatusRegister.from_u8 s).erase_failure = false →
      (erase_128kb_block (⟨o⟩ : W25N01GV Mode.WriteMode) pa).1 = .ok ⟨o⟩ ∧
      (write_data_buffer_to_memory (⟨o⟩ : W25N01GV Mode.WriteMode) pa).1 =
        .ok ⟨o⟩) := by
  constructor <;> intro hs <;> constructor <;>
    simp [erase_128kb_block, write_data_buffer_to_memory, busy_gate,
      check_busy, read_status_register, qspiTransfer, qspiWrite, h0, h1, h2,
      hbusy, hs]

/-- Claim C6, witness for the amended theorem: with `erase_failure` reported
after the command, both operations fail with `WriteFailure`. -/
theorem post_command_erase_failure_check_witness :
    eraseFailOracle 0 = .ok [0] ∧
    (StatusRegister.from_u8 0).device_busy = false ∧
    (StatusRegister.from_u8 4).erase_failure = true ∧
    (erase_128kb_block (⟨eraseFailOracle⟩ : W25N01GV Mode.WriteMode) 0).1 =
      .error .WriteFailure ∧
    (write_data_buffer_to_memory (⟨eraseFailOracle⟩ : W25N01GV Mode.WriteMode) 0).1 =
      .error .WriteFailure :=
  ⟨rfl, by decide, by decide,
    ((post_command_erase_failure_check eraseFailOracle 0 0 4 [0] rfl
      (by decide) rfl rfl).1 (by decide)).1,
    ((post_command_erase_failure_check eraseFailOracle 0 0 4 [0] rfl
      (by decide) rfl rfl).1 (by decide)).2⟩

/-- A second busy oracle, distinct from `busyOracle` (its status byte is 3,
which also has the busy bit set). -/
def busyOracleAlt : Oracle := fun _ => .ok [3]

/-- Claim C7, counterexample: the original claim says a failed transition
leaves the caller retaining a handle in the original mode, but the source
consumes `self` and every failure path returns a bare error.  Concretely,
at a busy device the entire output of `into_write_mode` and `into_read_mode`
is the pair of the `DeviceBusy` error token and the status-read trace — a
value containing no handle in either mode — and two distinct consumed
handles (backed by the distinct transports `busyOracle` and `busyOracleAlt`)
produce literally identical outputs, so the caller receives nothing from
which the original handle is retained or even recoverable. -/
theorem mode_transition_retention_counterexample :
    busyOracle 0 ≠ busyOracleAlt 0 ∧
    into_write_mode ⟨busyOracle⟩ = (.error .DeviceBusy, [statusReadEvent]) ∧
    into_write_mode ⟨busyOracleAlt⟩ = (.error .DeviceBusy, [statusReadEvent]) ∧
    into_read_mode ⟨busyOracle⟩ = (.error .DeviceBusy, [statusReadEvent]) ∧
    into_read_mode ⟨busyOracleAlt⟩ = (.error .DeviceBusy, [statusReadEvent]) :=
  ⟨by simp [busyOracle, busyOracleAlt], rfl, rfl, rfl, rfl⟩

/-- Claim C7, amended: a mode transition that fails — `DeviceBusy`
pre-flight rejection or transport failure — returns only the mapped error
(the handle is consumed and no handle in either mode is returned to the
caller), and in the pre-flight case issues no mode-change command at all,
so the device itself is left in the original mode; on success the consumed
handle's transport is returned inside a handle typed in the other mode.
The full result pair is stated on every path: each failure output consists
of the bare error and the bus trace alone. -/
theorem mode_transition_contract (o : Oracle) (b : Nat)
    (h0 : o 0 = .ok [b]) :
    ((StatusRegister.from_u8 b).device_busy = true →
      into_write_mode ⟨o⟩ = (.error .DeviceBusy, [statusReadEvent]) ∧
      into_read_mode ⟨o⟩ = (.error .DeviceBusy, [statusReadEvent])) ∧
    ((StatusRegister.from_u8 b).device_busy = false →
      (∀ e : QspiError, o 1 = .error e →
        into_write_mode ⟨o⟩ =
          (.error (FlashCommandError.from_qspi_error e),
           [statusReadEvent, .write enableWriteCommand]) ∧
        into_read_mode ⟨o⟩ =
          (.error (FlashCommandError.from_qspi_error e),
           [statusReadEvent, .write disableWriteCommand])) ∧
      (∀ w : List Nat, o 1 = .ok w →
        into_write_mode ⟨o⟩ =
          (.ok ⟨o⟩, [statusReadEvent, .write enableWriteCommand]) ∧
        into_read_mode ⟨o⟩ =
          (.ok ⟨o⟩, [statusReadEvent, .write disableWriteCommand]))) := by
  constructor
  · intro hb
    constructor <;>
      simp [into_write_mode, into_read_mode, busy_gate, check_busy,
        read_status_register, qspiTransfer, h0, hb, statusReadEvent]
  · intro hb
    constructor
    · intro e h1
      constructor <;>
        simp [into_write_mode, into_read_mode, busy_gate, check_busy,
          read_status_register, qspiTransfer, qspiWrite, h0, hb, h1,
          statusReadEvent]
    · intro w h1
      constructor <;>
        simp [into_write_mode, into_read_mode, busy_gate, check_busy,
          read_status_register, qspiTransfer, qspiWrite, h0, hb, h1,
          statusReadEvent]

/-- Claim C7, witness at a concrete busy oracle: both transitions are
rejected with `DeviceBusy` after the single status query. -/
theorem mode_transition_contract_witness :
    busyOracle 0 = .ok [1] ∧
    (StatusRegister.from_u8 1).device_busy = true ∧
    into_write_mode ⟨busyOracle⟩ = (.error .DeviceBusy, [statusReadEvent]) ∧
    into_read_mode ⟨busyOracle⟩ = (.error .DeviceBusy, [statusReadEvent]) :=
  ⟨rfl, by decide,
    ((mode_transition_contract busyOracle 1 rfl).1 (by decide)).1,
    ((mode_transition_contract busyOracle 1 rfl).1 (by decide)).2⟩

/-- Claim C8: `wait_while_busy` issues status queries one at a time and
stops at the first query that reports the busy bit clear or fails (the
transport error is swallowed — the function surfaces nothing); in
particular, when the first query reports not-busy or fails, exactly one
status query is issued; when it reports busy, the loop continues with the
next query.  `fuel` bounds the iterations of the otherwise unbounded Rust
loop. -/
theorem wait_while_busy_stops_on_first_query (o : Oracle) (fuel : Nat)
    (hf : 1 ≤ fuel) :
    (∀ bytes : List Nat, o 0 = .ok bytes →
      (StatusRegister.from_u8 (bytes.headD 0)).device_busy = false →
      wait_while_busy (⟨o⟩ : W25N01GV Mode.ReadMode) fuel = [statusReadEvent]) ∧
    (∀ e : QspiError, o 0 = .error e →
      wait_while_busy (⟨o⟩ : W25N01GV Mode.ReadMode) fuel = [statusReadEvent]) ∧
    (∀ bytes : List Nat, o 0 = .ok bytes →
      (StatusRegister.from_u8 (bytes.headD 0)).device_busy = true →
      wait_while_busy (⟨o⟩ : W25N01GV Mode.ReadMode) fuel =
        statusReadEvent :: wait_while_busy_loop o 1 (fuel - 1)) := by
  obtain ⟨f, rfl⟩ : ∃ f, fuel = f + 1 := ⟨fuel - 1, by omega⟩
  refine ⟨?_, ?_, ?_⟩
  · intro bytes h hbusy
    rw [List.headD_eq_head?] at hbusy
    simp [wait_while_busy, wait_while_busy_loop, check_busy,
      read_status_register, qspiTransfer, h, hbusy, statusReadEvent]
  · intro e h
    simp [wait_while_busy, wait_while_busy_loop, check_busy,
      read_status_register, qspiTransfer, h, statusReadEvent]
  · intro bytes h hbusy
    rw [List.headD_eq_head?] at hbusy
    simp [wait_while_busy, wait_while_busy_loop, check_busy,
      read_status_register, qspiTransfer, h, hbusy, statusReadEvent]

/-- Claim C8, witness: on an idle device the wait helper issues exactly one
status query even with fuel for five iterations. -/
theorem wait_while_busy_stops_witness :
    okOracle 0 = .ok [0] ∧
    (StatusRegister.from_u8 0).device_busy = false ∧
    wait_while_busy (⟨okOracle⟩ : W25N01GV Mode.ReadMode) 5 = [statusReadEvent] :=
  ⟨rfl, by decide,
    (wait_while_busy_stops_on_first_query okOracle 5 (by decide)).1 [0] rfl
      (by decide)⟩

/-- An oracle for a write-mode command sequence whose post-command status
read (transaction 2) itself fails with a transport error. -/
def statusFailOracle : Oracle :=
  fun i => if i = 2 then .error .unknown else .ok [0]

/-- Claim C9: when the post-command status read inside `erase_128kb_block`
or `write_data_buffer_to_memory` fails with a transport error, the error is
discarded and the operation returns a read-mode handle as if the failure
check had passed; the trace shows the status read was issued. -/
theorem post_status_read_failure_swallowed (o : Oracle) (pa b0 : Nat)
    (w : List Nat) (e : QspiError) (h0 : o 0 = .ok [b0])
    (hbusy : (StatusRegister.from_u8 b0).device_busy = false)
    (h1 : o 1 = .ok w) (h2 : o 2 = .error e) :
    erase_128kb_block (⟨o⟩ : W25N01GV Mode.WriteMode) pa =
      (.ok ⟨o⟩, [statusReadEvent,
        .write (eraseBlockCommand (u16_to_le_bytes pa)), statusReadEvent]) ∧
    write_data_buffer_to_memory (⟨o⟩ : W25N01GV Mode.WriteMode) pa =
      (.ok ⟨o⟩, [statusReadEvent,
        .write (programExecuteCommand (u16_to_le_bytes pa)), statusReadEvent]) := by
  constructor <;>
    simp [erase_128kb_block, write_data_buffer_to_memory, busy_gate,
      check_busy, read_status_register, qspiTransfer, qspiWrite, h0, h1, h2,
      hbusy, statusReadEvent]

/-- Claim C9, witness at a concrete oracle whose third transaction fails. -/
theorem post_status_read_failure_swallowed_witness :
    statusFailOracle 2 = .error .unknown ∧
    (erase_128kb_block (⟨statusFailOracle⟩ : W25N01GV Mode.WriteMode) 0).1 =
      .ok ⟨statusFailOracle⟩ ∧
    (write_data_buffer_to_memory (⟨statusFailOracle⟩ : W25N01GV Mode.WriteMode) 0).1 =
      .ok ⟨statusFailOracle⟩ :=
  ⟨rfl,
    congrArg Prod.fst
      ((post_status_read_failure_swallowed statusFailOracle 0 0 [0] .unknown
        rfl (by decide) rfl rfl).1),
    congrArg Prod.fst
      ((post_status_read_failure_swallowed statusFailOracle 0 0 [0] .unknown
        rfl (by decide) rfl rfl).2)⟩

/-- Claim C10: `set_write_protection` is a read-modify-write whose written
protection byte is the decode of the byte it just read with only `tb`,
`bp3`, `bp2`, `bp1`, `bp0` replaced by the arguments — `srp0`, `wpe` and
`srp1` keep their read values — and `set_continuous_read_mode cr` writes the
configuration register back with only `buf` replaced by `!cr`, keeping
`otp_l`, `otp_e`, `sr1_l` and `ecc_e` at their read values. -/
theorem read_modify_write_frame (o : Oracle) (b0 rb b2 : Nat) (w : List Nat)
    (tb bp3 bp2 bp1 bp0 continuous_read : Bool)
    (h0 : o 0 = .ok [b0])
    (hb0 : (StatusRegister.from_u8 b0).device_busy = false)
    (h1 : o 1 = .ok [rb])
    (h2 : o 2 = .ok [b2])
    (hb2 : (StatusRegister.from_u8 b2).device_busy = false)
    (h3 : o 3 = .ok w) :
    set_write_protection (⟨o⟩ : W25N01GV Mode.ReadMode) tb bp3 bp2 bp1 bp0 =
      (.ok (), [statusReadEvent,
        .transfer (readRegisterCommand ProtectionRegister.SAR_ADDRESS),
        statusReadEvent,
        .write (writeRegisterCommand [ProtectionRegister.SAR_ADDRESS,
          ProtectionRegister.to_u8 { ProtectionRegister.from_u8 rb with
            tb := tb, bp3 := bp3, bp2 := bp2, bp1 := bp1, bp0 := bp0 }])]) ∧
    ({ ProtectionRegister.from_u8 rb with
        tb := tb, bp3 := bp3, bp2 := bp2, bp1 := bp1, bp0 := bp0 }).srp0 =
      (ProtectionRegister.from_u8 rb).srp0 ∧
    ({ ProtectionRegister.from_u8 rb with
        tb := tb, bp3 := bp3, bp2 := bp2, bp1 := bp1, bp0 := bp0 }).wpe =
      (ProtectionRegister.from_u8 rb).wpe ∧
    ({ ProtectionRegister.from_u8 rb with
        tb := tb, bp3 := bp3, bp2 := bp2, bp1 := bp1, bp0 := bp0 }).srp1 =
      (ProtectionRegister.from_u8 rb).srp1 ∧
    set_continuous_read_mode (⟨o⟩ : W25N01GV Mode.ReadMode) continuous_read =
      (.ok (), [statusReadEvent,
        .transfer (readRegisterCommand ConfigurationRegister.SAR_ADDRESS),
        statusReadEvent,
        .write (writeRegisterCommand [ConfigurationRegister.SAR_ADDRESS,
          ConfigurationRegister.to_u8 { ConfigurationRegister.from_u8 rb with
            buf := !continuous_read }])]) ∧
    ({ ConfigurationRegister.from_u8 rb with buf := !continuous_read }).otp_l =
      (ConfigurationRegister.from_u8 rb).otp_l ∧
    ({ ConfigurationRegister.from_u8 rb with buf := !continuous_read }).otp_e =
      (ConfigurationRegister.from_u8 rb).otp_e ∧
    ({ ConfigurationRegister.from_u8 rb with buf := !continuous_read }).sr1_l =
      (ConfigurationRegister.from_u8 rb).sr1_l ∧
    ({ ConfigurationRegister.from_u8 rb with buf := !continuous_read }).ecc_e =
      (ConfigurationRegister.from_u8 rb).ecc_e := by
  refine ⟨?_, rfl, rfl, rfl, ?_, rfl, rfl, rfl, rfl⟩ <;>
    simp [set_write_protection, set_continuous_read_mode,
      write_protection_register, write_configuration_register,
      read_protection_register, read_configuration_register, busy_gate,
      check_busy, read_status_register, qspiTransfer, qspiWrite, h0, h1, h2,
      h3, hb0, hb2, statusReadEvent]

/-- Claim C10, witness at a concrete oracle (all reads return the byte 0,
every transaction succeeds). -/
theorem read_modify_write_frame_witness :
    okOracle 0 = .ok [0] ∧
    (StatusRegister.from_u8 0).device_busy = false ∧
    set_write_protection (⟨okOracle⟩ : W25N01GV Mode.ReadMode)
        true false true false true =
      (.ok (), [statusReadEvent,
        .transfer (readRegisterCommand ProtectionRegister.SAR_ADDRESS),
        statusReadEvent,
        .write (writeRegisterCommand [ProtectionRegister.SAR_ADDRESS,
          ProtectionRegister.to_u8 { ProtectionRegister.from_u8 0 with
            tb := true, bp3 := false, bp2 := true, bp1 := false,
            bp0 := true }])]) :=
  ⟨rfl, by decide,
    (read_modify_write_frame okOracle 0 0 0 [0] true false true false true
      false rfl (by decide) rfl rfl (by decide) rfl).1⟩
